import Mathlib

/-!
Orko UI: the `Authorizer` session component

A shallow embedding of `orko-ui/src/modules/auth/Authoriser.tsx`.

* The four `useState` cells (`loading`, `loggedIn`, `whitelisted`, `error`) are the
  record `SessionState`; the setters are record updates.
* The collaborators (`authService`, the token storage of `fetchUtil`, the `apiRequest`
  passed to `wrappedRequest`) are the environment: every asynchronous call has an
  `Outcome`, either a resolved value or a rejection carrying the message of the thrown
  error.
* Every operation is run to quiescence: all promise continuations it starts are run, in
  program order, with no other operation interleaved. A call that is not awaited
  (`clearWhitelisting()` inside `wrappedRequest`, the promise chain inside `onLogin`) is
  run in place and its outcome is dropped, as the source drops the promise.
* Every call to a collaborator, every handler invocation and every `dispatch` is appended
  to the trace of the `World`. `console.log` calls are not modelled.
-/

namespace Orko

/-! ## Values -/

/-- The value held by the `error` state cell: `undefined` (the initial `useState` value),
`null`, or a message. -/
inductive ErrorVal where
  | undefined
  | null
  | message (text : String)
  deriving DecidableEq, Repr

/-- The four state cells of the component. -/
structure SessionState where
  loading : Bool
  loggedIn : Bool
  whitelisted : Bool
  error : ErrorVal
  deriving DecidableEq, Repr

/-- The state at mount: `useState(true)`, `useState(false)`, `useState(false)`,
`useState(undefined)`. -/
def SessionState.initial : SessionState :=
  { loading := true, loggedIn := false, whitelisted := false, error := ErrorVal.undefined }

/-- The derived flag `const authorised = whitelisted && loggedIn`. -/
def SessionState.authorised (s : SessionState) : Bool :=
  s.whitelisted && s.loggedIn

/-- What the component renders, as the named states of the session machine. -/
inductive NamedState where
  | INITIALIZING
  | WHITELIST_REQUIRED
  | LOGIN_REQUIRED
  | AUTHORIZED
  deriving DecidableEq, Repr

/-- The `if (loading) ... else if (!whitelisted) ... else if (!loggedIn) ... else ...`
cascade at the end of the component. -/
def namedState (s : SessionState) : NamedState :=
  if s.loading then NamedState.INITIALIZING
  else if !s.whitelisted then NamedState.WHITELIST_REQUIRED
  else if !s.loggedIn then NamedState.LOGIN_REQUIRED
  else NamedState.AUTHORIZED

/-- A decoded JSON value. A number is represented by its string coercion, the text that
`Number.prototype.toString` gives for it ("0" for both zeros, "1e+21", "0.5", "Infinity"),
which is all the component observes of a number. An object lists its members in the order
of the text; of members with the same key the last one is the property. -/
inductive Json where
  | null
  | bool (b : Bool)
  | num (text : String)
  | str (s : String)
  | arr (items : List Json)
  | obj (fields : List (String × Json))
  deriving Repr

/-- A JavaScript value as far as the component inspects one: `undefined` is `none`. -/
abbrev JsVal := Option Json

/-- JavaScript truthiness (`Boolean(v)`, `!v`, `if (v)`). -/
def truthy : JsVal → Bool
  | none => false
  | some Json.null => false
  | some (Json.bool b) => b
  | some (Json.num text) => text != "0" && text != "NaN"
  | some (Json.str s) => s != ""
  | some (Json.arr _) => true
  | some (Json.obj _) => true

/-- The outcome of an awaited call: the promise resolves with a value, or rejects with an
error whose `message` is recorded. -/
inductive Outcome (α : Type) where
  | resolved (value : α)
  | rejected (message : String)
  deriving DecidableEq, Repr

/-! ## String coercion and property access -/

/-- Does a decoded object have an own property with this key. -/
def hasOwnKey (key : String) (fields : List (String × Json)) : Bool :=
  fields.any fun member => member.1 == key

mutual
/-- JavaScript `ToString` on a decoded JSON value. An array is joined with ",". An object
is coerced through its `toString` property: the inherited one gives "[object Object]";
an own property `toString` decoded from JSON is not callable, the inherited `valueOf`
returns the object itself, and the coercion throws a `TypeError` (the message is that of
V8). -/
def Json.toJsString : Json → Outcome String
  | Json.null => Outcome.resolved "null"
  | Json.bool b => Outcome.resolved (if b then "true" else "false")
  | Json.num text => Outcome.resolved text
  | Json.str s => Outcome.resolved s
  | Json.arr items => Json.joinItems items
  | Json.obj fields =>
    if hasOwnKey "toString" fields then
      Outcome.rejected "Cannot convert object to primitive value"
    else Outcome.resolved "[object Object]"
/-- The body of `Array.prototype.join(",")`: a `null` element contributes the empty
string, any other element its string coercion, which may throw. -/
def Json.joinItems : List Json → Outcome String
  | [] => Outcome.resolved ""
  | Json.null :: rest => Json.joinRest rest
  | item :: rest =>
    match Json.toJsString item with
    | Outcome.rejected m => Outcome.rejected m
    | Outcome.resolved first =>
      match Json.joinRest rest with
      | Outcome.rejected m => Outcome.rejected m
      | Outcome.resolved others => Outcome.resolved (first ++ others)
/-- The elements after the first, each preceded by the separator. -/
def Json.joinRest : List Json → Outcome String
  | [] => Outcome.resolved ""
  | Json.null :: rest =>
    match Json.joinRest rest with
    | Outcome.rejected m => Outcome.rejected m
    | Outcome.resolved others => Outcome.resolved ("," ++ others)
  | item :: rest =>
    match Json.toJsString item with
    | Outcome.rejected m => Outcome.rejected m
    | Outcome.resolved next =>
      match Json.joinRest rest with
      | Outcome.rejected m => Outcome.rejected m
      | Outcome.resolved others => Outcome.resolved ("," ++ next ++ others)
end

/-- The expression `new Error(v)`: the `message` of the error constructed, which is empty
when `v` is `undefined` and `ToString(v)` otherwise, or the `TypeError` that the coercion
throws. -/
def newError : JsVal → Outcome String
  | none => Outcome.resolved ""
  | some v => Json.toJsString v

/-- The property access `body.message` on a decoded body: a `TypeError` on `null`, the
property on an object that has it, `undefined` otherwise. -/
def Json.message : Json → Outcome JsVal
  | Json.null => Outcome.rejected "Cannot read properties of null (reading message)"
  | Json.obj fields => Outcome.resolved (fields.reverse.lookup "message")
  | _ => Outcome.resolved none

/-! ## Collaborators -/

/-- The response of an API call, as `wrappedRequest` reads it: `status`, `statusText` and
the outcome of `response.json()`. -/
structure Response where
  status : Nat
  statusText : String
  json : Outcome Json
  deriving Repr

/-- The getter `response.ok` of a fetch response: the status is in the range 200 to 299. -/
def Response.ok (r : Response) : Bool :=
  decide (200 ≤ r.status) && decide (r.status ≤ 299)

/-- The value `authService.simpleLogin` resolves with. -/
structure LoginResponse where
  expiry : Int
  xsrf : String
  deriving DecidableEq, Repr

/-- The environment of the component, for login details of type `D`: the outcomes of the
calls to `authService` and the validity check of the token storage. `checkLoggedIn` is
called more than once by one operation, so its outcome depends on the number of earlier
calls to it. -/
structure Env (D : Type) where
  checkLoggedIn : Nat → Outcome Bool
  checkWhiteList : Outcome JsVal
  whitelist : String → Outcome Unit
  simpleLogin : D → Outcome LoginResponse
  clearWhiteList : Outcome Unit
  tokenValid : String → Bool

/-- What the component does to the outside, in order: calls to `authService`, to the token
storage and to `apiRequest`, handler invocations with their argument, and dispatched
actions of type `A`. -/
inductive Event (D A : Type) where
  | checkLoggedIn
  | checkWhiteList
  | whitelist (token : String)
  | simpleLogin (details : D)
  | clearWhiteList
  | setXsrfToken (token : String)
  | clearXsrfToken
  | apiRequest
  | jsonHandler (body : Json)
  | errorHandler (message : String)
  | onSuccess
  | dispatch (action : A)

/-- Is the event a call to `authService.checkLoggedIn`. -/
def Event.isProbe {D A : Type} : Event D A → Bool
  | Event.checkLoggedIn => true
  | _ => false

/-- Is the event an invocation of one of the three handlers of `wrappedRequest`. -/
def Event.isHandler {D A : Type} : Event D A → Bool
  | Event.jsonHandler _ => true
  | Event.errorHandler _ => true
  | Event.onSuccess => true
  | _ => false

/-- Is the event an invocation of `errorHandler`. -/
def Event.isErrorHandler {D A : Type} : Event D A → Bool
  | Event.errorHandler _ => true
  | _ => false

/-- Is the event a call to `apiRequest`. -/
def Event.isApiRequest {D A : Type} : Event D A → Bool
  | Event.apiRequest => true
  | _ => false

/-- The action of a `dispatch` event. -/
def Event.action {D A : Type} : Event D A → Option A
  | Event.dispatch a => some a
  | _ => none

/-- The component state, the stored XSRF token and the trace so far. -/
structure World (D A : Type) where
  session : SessionState
  xsrfToken : Option String
  trace : List (Event D A)

variable {D A : Type}

/-- The world at mount. -/
def World.initial : World D A :=
  { session := SessionState.initial, xsrfToken := none, trace := [] }

/-- Append an event to the trace. -/
def World.record (e : Event D A) (w : World D A) : World D A :=
  { w with trace := w.trace ++ [e] }

/-- The number of calls to `authService.checkLoggedIn` so far. -/
def World.probeCount (w : World D A) : Nat :=
  w.trace.countP Event.isProbe

/-- The actions dispatched so far, in order. -/
def World.dispatched (w : World D A) : List A :=
  w.trace.filterMap Event.action

/-- The handler invocations so far, in order. -/
def World.handlerCalls (w : World D A) : List (Event D A) :=
  w.trace.filter Event.isHandler

/-! ## State setters -/

/-- The setter `setLoading`. -/
def setLoading (b : Bool) (w : World D A) : World D A :=
  { w with session := { w.session with loading := b } }

/-- The setter `setLoggedIn`. -/
def setLoggedIn (b : Bool) (w : World D A) : World D A :=
  { w with session := { w.session with loggedIn := b } }

/-- The setter `setWhitelisted`. -/
def setWhitelisted (b : Bool) (w : World D A) : World D A :=
  { w with session := { w.session with whitelisted := b } }

/-- The setter `setError`. -/
def setError (e : ErrorVal) (w : World D A) : World D A :=
  { w with session := { w.session with error := e } }

/-- The call `dispatch(action)` of the caller of the unit. -/
def dispatch (a : A) (w : World D A) : World D A :=
  w.record (Event.dispatch a)

/-! ## Token storage -/

/-- Modelled from the spec: `setXsrfToken` of `@orko-ui-common/util/fetchUtil`, which is
not part of the sources. It fails if the token is structurally invalid, and stores the
token otherwise. -/
def setXsrfToken (env : Env D) (token : String) (w : World D A) : Outcome Unit × World D A :=
  let w1 := w.record (Event.setXsrfToken token)
  if env.tokenValid token then
    (Outcome.resolved (), { w1 with xsrfToken := some token })
  else
    (Outcome.rejected "Invalid token", w1)

/-- Modelled from the spec: `clearXsrfToken` of `@orko-ui-common/util/fetchUtil`, which is
not part of the sources. It removes any stored token and does not fail. -/
def clearXsrfToken (w : World D A) : World D A :=
  { w.record Event.clearXsrfToken with xsrfToken := none }

/-! ## The operations of the component -/

/-- The probe `checkConnected`: awaits `authService.checkLoggedIn()`; on `true` sets
`whitelisted`, `loggedIn` and clears `error`; returns the result. A rejection of the
call rejects the probe before any setter runs. -/
def checkConnected (env : Env D) (w : World D A) : Outcome Bool × World D A :=
  let w1 := w.record Event.checkLoggedIn
  match env.checkLoggedIn w.probeCount with
  | Outcome.rejected m => (Outcome.rejected m, w1)
  | Outcome.resolved success =>
    if success then
      (Outcome.resolved success, setError ErrorVal.null (setLoggedIn true (setWhitelisted true w1)))
    else
      (Outcome.resolved success, w1)

/-- The `catch` block of `onWhitelist`. -/
def onWhitelistCatch (m : String) (w : World D A) : World D A :=
  setError (ErrorVal.message ("Whitelisting failed: " ++ m)) (setWhitelisted false w)

/-- The callback `onWhitelist(token)`; one `try` block covers the call to
`authService.whitelist` and the probe that follows it. -/
def onWhitelist (env : Env D) (token : String) (w : World D A) : World D A :=
  let w1 := w.record (Event.whitelist token)
  match env.whitelist token with
  | Outcome.rejected m => onWhitelistCatch m w1
  | Outcome.resolved _ =>
    let w2 := setError ErrorVal.null (setWhitelisted true w1)
    match checkConnected env w2 with
    | (Outcome.rejected m, w3) => onWhitelistCatch m w3
    | (Outcome.resolved _, w3) => w3

/-- The callback `onLogin(details)`: the chain
`simpleLogin(details).then(install token).then(checkConnected).catch(setError)`. -/
def onLogin (env : Env D) (details : D) (w : World D A) : World D A :=
  let w1 := w.record (Event.simpleLogin details)
  match env.simpleLogin details with
  | Outcome.rejected m => setError (ErrorVal.message m) w1
  | Outcome.resolved r =>
    match setXsrfToken env r.xsrf w1 with
    | (Outcome.rejected _, w2) => setError (ErrorVal.message "Malformed access token") w2
    | (Outcome.resolved _, w2) =>
      let w3 := setError ErrorVal.null (setLoggedIn true w2)
      match checkConnected env w3 with
      | (Outcome.rejected m, w4) => setError (ErrorVal.message m) w4
      | (Outcome.resolved _, w4) => w4

/-- The function `clearWhitelisting()`: on a rejection of `authService.clearWhiteList` it
returns without touching the state; its promise never rejects. -/
def clearWhitelisting (env : Env D) (w : World D A) : World D A :=
  let w1 := w.record Event.clearWhiteList
  match env.clearWhiteList with
  | Outcome.rejected _ => w1
  | Outcome.resolved _ => setWhitelisted false w1

/-- The function `logout()`. -/
def logout (w : World D A) : World D A :=
  setLoggedIn false (clearXsrfToken w)

/-- The statement `if (onSuccess) dispatch(onSuccess())`. -/
def dispatchOnSuccess (onSuccess : Option (Unit → A)) (w : World D A) : World D A :=
  match onSuccess with
  | some f => dispatch (f ()) (w.record Event.onSuccess)
  | none => w

/-- The value of `errorMessage` after the inner `try` block: the `message` property of the
decoded body, or the initial `null` when decoding or the property access throws. -/
def decodedMessage (response : Response) : JsVal :=
  match response.json with
  | Outcome.rejected _ => some Json.null
  | Outcome.resolved body =>
    match body.message with
    | Outcome.rejected _ => some Json.null
    | Outcome.resolved v => v

/-- The value of `errorMessage` passed to `new Error` for an unexpected status: the decoded
message, replaced, when it is falsy, by the status text or, when that is empty, by the
synthesized string. -/
def unexpectedErrorMessage (response : Response) : JsVal :=
  let errorMessage : JsVal := decodedMessage response
  if !truthy errorMessage then
    if response.statusText != "" then some (Json.str response.statusText)
    else some (Json.str ("Server error (" ++ toString response.status ++ ")"))
  else errorMessage

/-- The statement `throw new Error(errorMessage)` for an unexpected status: the message of
the error that leaves the `try` block, which is the error constructed or, when the
coercion of `errorMessage` throws, the `TypeError`. -/
def thrownMessage (response : Response) : String :=
  match newError (unexpectedErrorMessage response) with
  | Outcome.resolved message => message
  | Outcome.rejected typeError => typeError

/-- Following the words of the claim on the error message: the body decodes and its
`message` field is present and non-empty. A field is empty when it is falsy: the empty
string, `null`, `false` or a zero. -/
def hasBodyMessage (response : Response) : Bool :=
  match response.json with
  | Outcome.resolved (Json.obj fields) =>
    match fields.reverse.lookup "message" with
    | some field => truthy (some field)
    | none => false
  | _ => false

/-- The `try` block of the unit returned by `wrappedRequest`. The result is the outcome of
the block: a rejection is what the `catch` block receives. The promise of
`clearWhitelisting()` is dropped. -/
def wrappedRequestTry (env : Env D) (apiRequest : Outcome Response)
    (jsonHandler : Option (Json → A)) (onSuccess : Option (Unit → A)) (w : World D A) :
    Outcome Unit × World D A :=
  let w1 := w.record Event.apiRequest
  match apiRequest with
  | Outcome.rejected m => (Outcome.rejected m, w1)
  | Outcome.resolved response =>
    if !response.ok then
      if response.status == 403 then
        (Outcome.resolved (), clearWhitelisting env w1)
      else if response.status == 401 then
        (Outcome.resolved (), logout w1)
      else if response.status != 200 then
        (Outcome.rejected (thrownMessage response), w1)
      else
        (Outcome.resolved (), w1)
    else
      match jsonHandler with
      | some f =>
        match response.json with
        | Outcome.rejected m => (Outcome.rejected m, w1)
        | Outcome.resolved body =>
          (Outcome.resolved (),
            dispatchOnSuccess onSuccess (dispatch (f body) (w1.record (Event.jsonHandler body))))
      | none => (Outcome.resolved (), dispatchOnSuccess onSuccess w1)

/-- The unit returned by `wrappedRequest(apiRequest, jsonHandler, errorHandler, onSuccess)`,
run once: the `try` block, then the `catch` block on a rejection. The handlers are action
creators; an error is passed to `errorHandler` as its message. -/
def wrappedRequest (env : Env D) (apiRequest : Outcome Response)
    (jsonHandler : Option (Json → A)) (errorHandler : Option (String → A))
    (onSuccess : Option (Unit → A)) (w : World D A) : World D A :=
  match wrappedRequestTry env apiRequest jsonHandler onSuccess w with
  | (Outcome.resolved _, w1) => w1
  | (Outcome.rejected m, w1) =>
    match errorHandler with
    | some f => dispatch (f m) (w1.record (Event.errorHandler m))
    | none => w1

/-- The `catch` block of `doSetup`. -/
def doSetupCatch (m : String) (w : World D A) : World D A :=
  setError (ErrorVal.message m) (setWhitelisted false w)

/-- The function `doSetup` of the mount effect. A rejection of the first probe is outside
the `try` block and rejects `doSetup`. -/
def doSetup (env : Env D) (w : World D A) : Outcome Unit × World D A :=
  match checkConnected env w with
  | (Outcome.rejected m, w1) => (Outcome.rejected m, w1)
  | (Outcome.resolved connected, w1) =>
    if !connected then
      let w2 := w1.record Event.checkWhiteList
      match env.checkWhiteList with
      | Outcome.rejected m => (Outcome.resolved (), doSetupCatch m w2)
      | Outcome.resolved result =>
        if truthy result then
          let w3 := setError ErrorVal.null (setWhitelisted true w2)
          match checkConnected env w3 with
          | (Outcome.rejected m, w4) => (Outcome.resolved (), doSetupCatch m w4)
          | (Outcome.resolved _, w4) => (Outcome.resolved (), w4)
        else
          (Outcome.resolved (), setError ErrorVal.null (setWhitelisted false w2))
    else
      (Outcome.resolved (), w1)

/-- The mount effect: `doSetup().finally(() => setLoading(false))`. The outcome is that of
`doSetup`, which `finally` passes on. -/
def mountEffect (env : Env D) (w : World D A) : Outcome Unit × World D A :=
  match doSetup env w with
  | (o, w1) => (o, setLoading false w1)


/-! ## Concrete environments and states -/

/-- An environment in which every call succeeds and every token is valid. -/
def okEnv : Env String :=
  { checkLoggedIn := fun _ => Outcome.resolved true
    checkWhiteList := Outcome.resolved (some (Json.bool true))
    whitelist := fun _ => Outcome.resolved ()
    simpleLogin := fun _ => Outcome.resolved { expiry := 3600, xsrf := "token" }
    clearWhiteList := Outcome.resolved ()
    tokenValid := fun _ => true }

/-- A world in the AUTHORIZED state, with a stored token and an empty trace. -/
def authorizedWorld : World String String :=
  { session := { loading := false, loggedIn := true, whitelisted := true, error := ErrorVal.null }
    xsrfToken := some "token"
    trace := [] }

/-- An environment in which the token is accepted and the probe that follows throws. -/
def probeThrowsEnv : Env String :=
  { checkLoggedIn := fun _ => Outcome.rejected "Failed to fetch"
    checkWhiteList := Outcome.resolved (some (Json.bool false))
    whitelist := fun _ => Outcome.resolved ()
    simpleLogin := fun _ => Outcome.rejected "Bad credentials"
    clearWhiteList := Outcome.resolved ()
    tokenValid := fun _ => true }

/-- A world that is not whitelisted and not logged in, after loading. -/
def whitelistRequiredWorld : World String String :=
  { session := { loading := false, loggedIn := false, whitelisted := false, error := ErrorVal.null }
    xsrfToken := none
    trace := [] }

/-- An environment in which the login succeeds with a token that the token storage
rejects. -/
def malformedTokenEnv : Env String :=
  { checkLoggedIn := fun _ => Outcome.resolved true
    checkWhiteList := Outcome.resolved (some (Json.bool true))
    whitelist := fun _ => Outcome.resolved ()
    simpleLogin := fun _ => Outcome.resolved { expiry := 3600, xsrf := "" }
    clearWhiteList := Outcome.resolved ()
    tokenValid := fun t => t != "" }

/-- A world that is whitelisted and not logged in, after loading. -/
def loginRequiredWorld : World String String :=
  { session := { loading := false, loggedIn := false, whitelisted := true, error := ErrorVal.null }
    xsrfToken := none
    trace := [] }

/-- The response `500` with the body `{"message": "db down"}`. -/
def dbDownResponse : Response :=
  { status := 500
    statusText := "Internal Server Error"
    json := Outcome.resolved (Json.obj [("message", Json.str "db down")]) }

/-- The response `200` with the body `{"value": 1}`. -/
def valueOneResponse : Response :=
  { status := 200
    statusText := "OK"
    json := Outcome.resolved (Json.obj [("value", Json.num "1")]) }

/-- An environment in which the first probe fails, the whitelist check returns true and
later probes succeed. -/
def scenarioAEnv : Env String :=
  { checkLoggedIn := fun n => if n = 0 then Outcome.resolved false else Outcome.resolved true
    checkWhiteList := Outcome.resolved (some (Json.bool true))
    whitelist := fun _ => Outcome.resolved ()
    simpleLogin := fun _ => Outcome.rejected "Bad credentials"
    clearWhiteList := Outcome.resolved ()
    tokenValid := fun _ => true }

/-- An environment in which every probe fails and the whitelist check returns false. -/
def scenarioBEnv : Env String :=
  { checkLoggedIn := fun _ => Outcome.resolved false
    checkWhiteList := Outcome.resolved (some (Json.bool false))
    whitelist := fun _ => Outcome.resolved ()
    simpleLogin := fun _ => Outcome.rejected "Bad credentials"
    clearWhiteList := Outcome.resolved ()
    tokenValid := fun _ => true }

/-- A world that is not whitelisted, with `loggedIn` still set, after loading. -/
def revokedWorld : World String String :=
  { session := { loading := false, loggedIn := true, whitelisted := false, error := ErrorVal.null }
    xsrfToken := some "token"
    trace := [] }

/-- A world in the AUTHORIZED state whose `error` still holds a message: the state after
a login that succeeded and was followed by a probe that threw. -/
def staleErrorWorld : World String String :=
  { session := { loading := false, loggedIn := true, whitelisted := true,
                 error := ErrorVal.message "Failed to fetch" }
    xsrfToken := some "token"
    trace := [] }

/-! ## Helper lemmas -/

theorem ok_false_of_401 (r : Response) (h : r.status = 401) : r.ok = false := by
  simp [Response.ok, h]

theorem ok_false_of_403 (r : Response) (h : r.status = 403) : r.ok = false := by
  simp [Response.ok, h]

theorem wrappedRequest_401_eq (env : Env D) (w : World D A) (r : Response)
    (jsonHandler : Option (Json → A)) (errorHandler : Option (String → A))
    (onSuccess : Option (Unit → A)) (hs : r.status = 401) :
    wrappedRequest env (Outcome.resolved r) jsonHandler errorHandler onSuccess w
      = logout (w.record Event.apiRequest) := by
  simp [wrappedRequest, wrappedRequestTry, ok_false_of_401 r hs, hs]

theorem wrappedRequest_403_eq (env : Env D) (w : World D A) (r : Response)
    (jsonHandler : Option (Json → A)) (errorHandler : Option (String → A))
    (onSuccess : Option (Unit → A)) (hs : r.status = 403) :
    wrappedRequest env (Outcome.resolved r) jsonHandler errorHandler onSuccess w
      = clearWhitelisting env (w.record Event.apiRequest) := by
  simp [wrappedRequest, wrappedRequestTry, ok_false_of_403 r hs, hs]

@[simp] theorem probeCount_setError (e : ErrorVal) (w : World D A) :
    (setError e w).probeCount = w.probeCount := rfl

@[simp] theorem probeCount_setLoggedIn (b : Bool) (w : World D A) :
    (setLoggedIn b w).probeCount = w.probeCount := rfl

@[simp] theorem probeCount_setWhitelisted (b : Bool) (w : World D A) :
    (setWhitelisted b w).probeCount = w.probeCount := rfl

@[simp] theorem probeCount_setLoading (b : Bool) (w : World D A) :
    (setLoading b w).probeCount = w.probeCount := rfl

theorem probeCount_record (e : Event D A) (w : World D A) :
    (w.record e).probeCount = w.probeCount + (if e.isProbe then 1 else 0) := by
  cases h : e.isProbe <;> simp [World.probeCount, World.record, List.countP_cons, h]

theorem checkConnected_rejected (env : Env D) (w : World D A) (m : String)
    (h : env.checkLoggedIn w.probeCount = Outcome.rejected m) :
    checkConnected env w = (Outcome.rejected m, w.record Event.checkLoggedIn) := by
  simp [checkConnected, h]

theorem checkConnected_true (env : Env D) (w : World D A)
    (h : env.checkLoggedIn w.probeCount = Outcome.resolved true) :
    checkConnected env w
      = (Outcome.resolved true,
          setError ErrorVal.null
            (setLoggedIn true (setWhitelisted true (w.record Event.checkLoggedIn)))) := by
  simp [checkConnected, h]

theorem checkConnected_false (env : Env D) (w : World D A)
    (h : env.checkLoggedIn w.probeCount = Outcome.resolved false) :
    checkConnected env w = (Outcome.resolved false, w.record Event.checkLoggedIn) := by
  simp [checkConnected, h]

theorem setXsrfToken_valid (env : Env D) (token : String) (w : World D A)
    (h : env.tokenValid token = true) :
    setXsrfToken env token w
      = (Outcome.resolved (),
          { w.record (Event.setXsrfToken token) with xsrfToken := some token }) := by
  simp [setXsrfToken, h]

theorem setXsrfToken_invalid (env : Env D) (token : String) (w : World D A)
    (h : env.tokenValid token = false) :
    setXsrfToken env token w
      = (Outcome.rejected "Invalid token", w.record (Event.setXsrfToken token)) := by
  simp [setXsrfToken, h]

theorem truthy_decodedMessage (r : Response) :
    truthy (decodedMessage r) = hasBodyMessage r := by
  unfold decodedMessage hasBodyMessage
  cases hj : r.json with
  | rejected m => simp [truthy]
  | resolved body =>
    cases body with
    | obj fields =>
      cases hf : fields.reverse.lookup "message" with
      | none => simp [Json.message, hf, truthy]
      | some field => simp [Json.message, hf]
    | null => simp [Json.message, truthy]
    | bool b => simp [Json.message, truthy]
    | num text => simp [Json.message, truthy]
    | str t => simp [Json.message, truthy]
    | arr items => simp [Json.message, truthy]

/-! ## Claims -/

/-- C1: from a state with `whitelisted` and `loggedIn` set, running the unit of
`wrappedRequest` on a response with status 401 (which is not ok) calls `apiRequest`, clears
the token and does nothing else: `loggedIn` becomes false, `whitelisted` stays true,
`loading` and `error` are untouched, the named state is LOGIN_REQUIRED once loading is
over, no handler is invoked and no action is dispatched, whatever handlers are passed. -/
theorem wrappedRequest_401_logs_out (env : Env D) (w : World D A) (r : Response)
    (jsonHandler : Option (Json → A)) (errorHandler : Option (String → A))
    (onSuccess : Option (Unit → A))
    (hw : w.session.whitelisted = true) (_hl : w.session.loggedIn = true)
    (hs : r.status = 401) :
    let w1 := wrappedRequest env (Outcome.resolved r) jsonHandler errorHandler onSuccess w
    r.ok = false ∧
    w1.session.loggedIn = false ∧
    w1.session.whitelisted = true ∧
    w1.session.loading = w.session.loading ∧
    w1.session.error = w.session.error ∧
    (w.session.loading = false → namedState w1.session = NamedState.LOGIN_REQUIRED) ∧
    w1.trace = w.trace ++ [Event.apiRequest, Event.clearXsrfToken] ∧
    w1.handlerCalls = w.handlerCalls ∧
    w1.dispatched = w.dispatched := by
  intro w1
  have hrun : w1 = logout (w.record Event.apiRequest) :=
    wrappedRequest_401_eq env w r jsonHandler errorHandler onSuccess hs
  rw [hrun]
  refine ⟨ok_false_of_401 r hs, ?_, ?_, ?_, ?_, ?_, ?_, ?_, ?_⟩
  · simp [logout, setLoggedIn]
  · simpa [logout, setLoggedIn, clearXsrfToken, World.record] using hw
  · simp [logout, setLoggedIn, clearXsrfToken, World.record]
  · simp [logout, setLoggedIn, clearXsrfToken, World.record]
  · intro hload
    simp [namedState, logout, setLoggedIn, clearXsrfToken, World.record, hload, hw]
  · simp [logout, setLoggedIn, clearXsrfToken, World.record]
  · simp [logout, setLoggedIn, clearXsrfToken, World.record, World.handlerCalls,
      List.filter_cons, Event.isHandler]
  · simp [logout, setLoggedIn, clearXsrfToken, World.record, World.dispatched, Event.action]

/-- C1 at a response `401 Unauthorized` in the AUTHORIZED state, with all three handlers
passed. -/
theorem wrappedRequest_401_logs_out_witness :
    authorizedWorld.session.whitelisted = true ∧ authorizedWorld.session.loggedIn = true ∧
    namedState (wrappedRequest okEnv
      (Outcome.resolved { status := 401, statusText := "Unauthorized", json := Outcome.rejected "no body" })
      (some fun _ => "json") (some fun m => m) (some fun _ => "done")
      authorizedWorld).session = NamedState.LOGIN_REQUIRED ∧
    (wrappedRequest okEnv
      (Outcome.resolved { status := 401, statusText := "Unauthorized", json := Outcome.rejected "no body" })
      (some fun _ => "json") (some fun m => m) (some fun _ => "done")
      authorizedWorld).handlerCalls = authorizedWorld.handlerCalls :=
  ⟨rfl, rfl,
    (wrappedRequest_401_logs_out okEnv authorizedWorld
      { status := 401, statusText := "Unauthorized", json := Outcome.rejected "no body" }
      (some fun _ => "json") (some fun m => m) (some fun _ => "done") rfl rfl rfl).2.2.2.2.2.1 rfl,
    (wrappedRequest_401_logs_out okEnv authorizedWorld
      { status := 401, statusText := "Unauthorized", json := Outcome.rejected "no body" }
      (some fun _ => "json") (some fun m => m) (some fun _ => "done") rfl rfl rfl).2.2.2.2.2.2.2.1⟩

/-- C2: from a state with `whitelisted` and `loggedIn` set, running the unit of
`wrappedRequest` on a response with status 403 (which is not ok), when
`authService.clearWhiteList` resolves, calls `apiRequest` and `clearWhiteList` and does
nothing else: `whitelisted` becomes false, `loggedIn`, `loading` and `error` are untouched,
the named state is WHITELIST_REQUIRED once loading is over, no handler is invoked and no
action is dispatched, whatever handlers are passed. -/
theorem wrappedRequest_403_clears_whitelisting (env : Env D) (w : World D A) (r : Response)
    (jsonHandler : Option (Json → A)) (errorHandler : Option (String → A))
    (onSuccess : Option (Unit → A))
    (_hw : w.session.whitelisted = true) (hl : w.session.loggedIn = true)
    (hs : r.status = 403) (hclear : env.clearWhiteList = Outcome.resolved ()) :
    let w1 := wrappedRequest env (Outcome.resolved r) jsonHandler errorHandler onSuccess w
    r.ok = false ∧
    w1.session.whitelisted = false ∧
    w1.session.loggedIn = true ∧
    w1.session.loading = w.session.loading ∧
    w1.session.error = w.session.error ∧
    (w.session.loading = false → namedState w1.session = NamedState.WHITELIST_REQUIRED) ∧
    w1.trace = w.trace ++ [Event.apiRequest, Event.clearWhiteList] ∧
    w1.handlerCalls = w.handlerCalls ∧
    w1.dispatched = w.dispatched := by
  intro w1
  have hrun : w1 = setWhitelisted false ((w.record Event.apiRequest).record Event.clearWhiteList) := by
    have h := wrappedRequest_403_eq env w r jsonHandler errorHandler onSuccess hs
    simpa [clearWhitelisting, hclear] using h
  rw [hrun]
  refine ⟨ok_false_of_403 r hs, ?_, ?_, ?_, ?_, ?_, ?_, ?_, ?_⟩
  · simp [setWhitelisted]
  · simpa [setWhitelisted, World.record] using hl
  · simp [setWhitelisted, World.record]
  · simp [setWhitelisted, World.record]
  · intro hload
    simp [namedState, setWhitelisted, World.record, hload]
  · simp [setWhitelisted, World.record]
  · simp [setWhitelisted, World.record, World.handlerCalls, List.filter_cons, Event.isHandler]
  · simp [setWhitelisted, World.record, World.dispatched, Event.action]

/-- C2 at a response `403 Forbidden` in the AUTHORIZED state, with all three handlers
passed. -/
theorem wrappedRequest_403_clears_whitelisting_witness :
    authorizedWorld.session.whitelisted = true ∧ authorizedWorld.session.loggedIn = true ∧
    okEnv.clearWhiteList = Outcome.resolved () ∧
    namedState (wrappedRequest okEnv
      (Outcome.resolved { status := 403, statusText := "Forbidden", json := Outcome.rejected "no body" })
      (some fun _ => "json") (some fun m => m) (some fun _ => "done")
      authorizedWorld).session = NamedState.WHITELIST_REQUIRED ∧
    (wrappedRequest okEnv
      (Outcome.resolved { status := 403, statusText := "Forbidden", json := Outcome.rejected "no body" })
      (some fun _ => "json") (some fun m => m) (some fun _ => "done")
      authorizedWorld).handlerCalls = authorizedWorld.handlerCalls :=
  ⟨rfl, rfl, rfl,
    (wrappedRequest_403_clears_whitelisting okEnv authorizedWorld
      { status := 403, statusText := "Forbidden", json := Outcome.rejected "no body" }
      (some fun _ => "json") (some fun m => m) (some fun _ => "done") rfl rfl rfl rfl).2.2.2.2.2.1 rfl,
    (wrappedRequest_403_clears_whitelisting okEnv authorizedWorld
      { status := 403, statusText := "Forbidden", json := Outcome.rejected "no body" }
      (some fun _ => "json") (some fun m => m) (some fun _ => "done") rfl rfl rfl rfl).2.2.2.2.2.2.2.1⟩

/-- C3: whatever the outcomes of the calls to `authService` (each probe returning true,
returning false or throwing, `checkWhiteList` returning any value or throwing) and
whatever the starting state, the mount effect ends with `loading` false. -/
theorem mountEffect_clears_loading (env : Env D) (w : World D A) :
    (mountEffect env w).2.session.loading = false := by
  simp [mountEffect, setLoading]

/-- C4, counterexample: the state is not whitelisted and `authService.whitelist` accepts
the token, but the probe that follows throws; `onWhitelist` ends with `whitelisted` false
and the error "Whitelisting failed: Failed to fetch". -/
theorem onWhitelist_probe_throws_counterexample :
    whitelistRequiredWorld.session.whitelisted = false ∧
    probeThrowsEnv.whitelist "123456" = Outcome.resolved () ∧
    probeThrowsEnv.checkLoggedIn whitelistRequiredWorld.probeCount
      = Outcome.rejected "Failed to fetch" ∧
    (onWhitelist probeThrowsEnv "123456" whitelistRequiredWorld).session.whitelisted = false ∧
    (onWhitelist probeThrowsEnv "123456" whitelistRequiredWorld).session.error
      = ErrorVal.message "Whitelisting failed: Failed to fetch" := by
  decide

/-- C4, amended: when `authService.whitelist(token)` resolves, `onWhitelist` ends with
`whitelisted` true whenever the probe that follows returns (true or false), and if it
returns true also with `loggedIn` true and `error` null; when the probe throws, the
`catch` block runs: `whitelisted` is false and `error` is "Whitelisting failed: " followed
by the message thrown. -/
theorem onWhitelist_accepted (env : Env D) (token : String) (w : World D A)
    (_hw : w.session.whitelisted = false)
    (hacc : env.whitelist token = Outcome.resolved ()) :
    (∀ b, env.checkLoggedIn w.probeCount = Outcome.resolved b →
      (onWhitelist env token w).session.whitelisted = true ∧
      (b = true → (onWhitelist env token w).session.loggedIn = true ∧
        (onWhitelist env token w).session.error = ErrorVal.null)) ∧
    (∀ m, env.checkLoggedIn w.probeCount = Outcome.rejected m →
      (onWhitelist env token w).session.whitelisted = false ∧
      (onWhitelist env token w).session.error
        = ErrorVal.message ("Whitelisting failed: " ++ m)) := by
  have hcount : (setError ErrorVal.null
      (setWhitelisted true (w.record (Event.whitelist token)))).probeCount = w.probeCount := by
    simp [probeCount_record, Event.isProbe]
  constructor
  · intro b hb
    rw [← hcount] at hb
    cases b
    · have hrun : onWhitelist env token w
          = (setError ErrorVal.null (setWhitelisted true
              (w.record (Event.whitelist token)))).record Event.checkLoggedIn := by
        simp only [onWhitelist, hacc]
        rw [checkConnected_false env _ hb]
      rw [hrun]
      simp [setError, setWhitelisted, World.record]
    · have hrun : onWhitelist env token w
          = setError ErrorVal.null (setLoggedIn true (setWhitelisted true
              ((setError ErrorVal.null (setWhitelisted true
                (w.record (Event.whitelist token)))).record Event.checkLoggedIn))) := by
        simp only [onWhitelist, hacc]
        rw [checkConnected_true env _ hb]
      rw [hrun]
      simp [setError, setWhitelisted, setLoggedIn, World.record]
  · intro m hm
    rw [← hcount] at hm
    have hrun : onWhitelist env token w
        = onWhitelistCatch m ((setError ErrorVal.null (setWhitelisted true
            (w.record (Event.whitelist token)))).record Event.checkLoggedIn) := by
      simp only [onWhitelist, hacc]
      rw [checkConnected_rejected env _ m hm]
    rw [hrun]
    simp [onWhitelistCatch, setError, setWhitelisted, World.record]

/-- C4, amended, at an accepted token followed by a probe that returns true. -/
theorem onWhitelist_accepted_witness :
    whitelistRequiredWorld.session.whitelisted = false ∧
    okEnv.whitelist "123456" = Outcome.resolved () ∧
    okEnv.checkLoggedIn whitelistRequiredWorld.probeCount = Outcome.resolved true ∧
    (onWhitelist okEnv "123456" whitelistRequiredWorld).session.whitelisted = true ∧
    (onWhitelist okEnv "123456" whitelistRequiredWorld).session.loggedIn = true ∧
    (onWhitelist okEnv "123456" whitelistRequiredWorld).session.error = ErrorVal.null :=
  ⟨rfl, rfl, rfl,
    ((onWhitelist_accepted okEnv "123456" whitelistRequiredWorld rfl rfl).1 true rfl).1,
    ((onWhitelist_accepted okEnv "123456" whitelistRequiredWorld rfl rfl).1 true rfl).2 rfl⟩

/-- C5: from a state with `loggedIn` false, when `authService.simpleLogin(details)`
resolves and `setXsrfToken` fails on the token returned, `onLogin` calls `simpleLogin` and
`setXsrfToken` and nothing else (the probe is not called), `loggedIn` is still false,
`whitelisted` and `loading` are unchanged and `error` is "Malformed access token". -/
theorem onLogin_malformed_token (env : Env D) (details : D) (w : World D A)
    (r : LoginResponse)
    (hl : w.session.loggedIn = false)
    (hlogin : env.simpleLogin details = Outcome.resolved r)
    (hbad : env.tokenValid r.xsrf = false) :
    (setXsrfToken env r.xsrf (w.record (Event.simpleLogin details))).1
      = Outcome.rejected "Invalid token" ∧
    (onLogin env details w).session.loggedIn = false ∧
    (onLogin env details w).session.whitelisted = w.session.whitelisted ∧
    (onLogin env details w).session.loading = w.session.loading ∧
    (onLogin env details w).session.error = ErrorVal.message "Malformed access token" ∧
    (onLogin env details w).trace
      = w.trace ++ [Event.simpleLogin details, Event.setXsrfToken r.xsrf] ∧
    (onLogin env details w).probeCount = w.probeCount := by
  have hrun : onLogin env details w
      = setError (ErrorVal.message "Malformed access token")
          ((w.record (Event.simpleLogin details)).record (Event.setXsrfToken r.xsrf)) := by
    simp [onLogin, hlogin, setXsrfToken, hbad]
  rw [hrun]
  refine ⟨?_, ?_, ?_, ?_, ?_, ?_, ?_⟩
  · simp [setXsrfToken, hbad]
  · simpa [setError, World.record] using hl
  · simp [setError, World.record]
  · simp [setError, World.record]
  · simp [setError]
  · simp [setError, World.record]
  · simp [setError, World.record, World.probeCount, Event.isProbe]

/-- C5 at a login whose response carries the empty token, which the storage rejects. -/
theorem onLogin_malformed_token_witness :
    loginRequiredWorld.session.loggedIn = false ∧
    malformedTokenEnv.simpleLogin "user" = Outcome.resolved { expiry := 3600, xsrf := "" } ∧
    malformedTokenEnv.tokenValid "" = false ∧
    (onLogin malformedTokenEnv "user" loginRequiredWorld).session.loggedIn = false ∧
    (onLogin malformedTokenEnv "user" loginRequiredWorld).session.error
      = ErrorVal.message "Malformed access token" ∧
    (onLogin malformedTokenEnv "user" loginRequiredWorld).probeCount = 0 :=
  ⟨rfl, rfl, rfl,
    (onLogin_malformed_token malformedTokenEnv "user" loginRequiredWorld
      { expiry := 3600, xsrf := "" } rfl rfl rfl).2.1,
    (onLogin_malformed_token malformedTokenEnv "user" loginRequiredWorld
      { expiry := 3600, xsrf := "" } rfl rfl rfl).2.2.2.2.1,
    (onLogin_malformed_token malformedTokenEnv "user" loginRequiredWorld
      { expiry := 3600, xsrf := "" } rfl rfl rfl).2.2.2.2.2.2⟩

/-- C6: for a response that is not ok, with a status other than 401 and 403, and an
`errorHandler`, the unit of `wrappedRequest` calls `apiRequest`, invokes `errorHandler`
once with an error and dispatches the result, and does nothing else: no other handler is
invoked and the session is unchanged. The message of the error is the `message` field of
the decoded body when that is a non-empty string; when the body does not decode or has
no non-empty `message` field, the message is the status text if that is non-empty, else
"Server error (" followed by the status and ")". A non-empty field that is not a string
goes through `new Error`, and the handler receives the error that leaves the `try` block
(`thrownMessage`), once as well. -/
theorem wrappedRequest_unexpected_status (env : Env D) (w : World D A) (r : Response)
    (jsonHandler : Option (Json → A)) (errorHandler : String → A)
    (onSuccess : Option (Unit → A))
    (hok : r.ok = false) (h401 : r.status ≠ 401) (h403 : r.status ≠ 403) :
    let w1 := wrappedRequest env (Outcome.resolved r) jsonHandler (some errorHandler) onSuccess w
    let msg := thrownMessage r
    w1.session = w.session ∧
    w1.trace = w.trace ++ [Event.apiRequest, Event.errorHandler msg,
      Event.dispatch (errorHandler msg)] ∧
    w1.handlerCalls = w.handlerCalls ++ [Event.errorHandler msg] ∧
    w1.dispatched = w.dispatched ++ [errorHandler msg] ∧
    (∀ body s, r.json = Outcome.resolved body →
      body.message = Outcome.resolved (some (Json.str s)) → s ≠ "" → msg = s) ∧
    (hasBodyMessage r = false → r.statusText ≠ "" → msg = r.statusText) ∧
    (hasBodyMessage r = false → r.statusText = "" →
      msg = "Server error (" ++ toString r.status ++ ")") := by
  intro w1 msg
  have h200 : r.status ≠ 200 := by
    intro h
    simp [Response.ok, h] at hok
  have hrun : w1 = dispatch (errorHandler msg)
      ((w.record Event.apiRequest).record (Event.errorHandler msg)) := by
    simp [w1, msg, wrappedRequest, wrappedRequestTry, hok, h401, h403, h200]
  rw [hrun]
  refine ⟨?_, ?_, ?_, ?_, ?_, ?_, ?_⟩
  · simp [dispatch, World.record]
  · simp [dispatch, World.record]
  · simp [dispatch, World.record, World.handlerCalls, List.filter_cons, Event.isHandler]
  · simp [dispatch, World.record, World.dispatched, Event.action]
  · intro body s hj hm hs
    simp [msg, thrownMessage, unexpectedErrorMessage, decodedMessage, hj, hm, truthy, hs,
      newError, Json.toJsString]
  · intro ht hs
    rw [← truthy_decodedMessage] at ht
    simp [msg, thrownMessage, unexpectedErrorMessage, ht, hs, newError, Json.toJsString]
  · intro ht hs
    rw [← truthy_decodedMessage] at ht
    simp [msg, thrownMessage, unexpectedErrorMessage, ht, hs, newError, Json.toJsString]

/-- C6 at status 500 with the body `{"message": "db down"}`: `errorHandler` is invoked
once, with the message "db down". -/
theorem wrappedRequest_unexpected_status_witness :
    dbDownResponse.ok = false ∧ dbDownResponse.status ≠ 401 ∧ dbDownResponse.status ≠ 403 ∧
    thrownMessage dbDownResponse = "db down" ∧
    (wrappedRequest okEnv (Outcome.resolved dbDownResponse) (some fun _ => "json")
      (some fun m => "failed: " ++ m) (some fun _ => "done") authorizedWorld).handlerCalls
      = authorizedWorld.handlerCalls ++ [Event.errorHandler (thrownMessage dbDownResponse)] :=
  ⟨by decide, by decide, by decide,
    (wrappedRequest_unexpected_status okEnv authorizedWorld dbDownResponse
      (some fun _ => "json") (fun m => "failed: " ++ m) (some fun _ => "done")
      (by decide) (by decide) (by decide)).2.2.2.2.1
      (Json.obj [("message", Json.str "db down")]) "db down" rfl rfl (by decide),
    (wrappedRequest_unexpected_status okEnv authorizedWorld dbDownResponse
      (some fun _ => "json") (fun m => "failed: " ++ m) (some fun _ => "done")
      (by decide) (by decide) (by decide)).2.2.1⟩

/-- C7: for a response that is ok whose body decodes to `body`, with `jsonHandler` and
`onSuccess` passed, the unit of `wrappedRequest` calls `apiRequest` once, invokes
`jsonHandler` on `body` and dispatches the result, then invokes `onSuccess` and
dispatches the result, and does nothing else: exactly two actions are dispatched, in
that order, `errorHandler` is not invoked and the session is unchanged. -/
theorem wrappedRequest_success (env : Env D) (w : World D A) (r : Response) (body : Json)
    (jsonHandler : Json → A) (errorHandler : Option (String → A)) (onSuccess : Unit → A)
    (hok : r.ok = true) (hbody : r.json = Outcome.resolved body) :
    let w1 := wrappedRequest env (Outcome.resolved r) (some jsonHandler) errorHandler
      (some onSuccess) w
    w1.session = w.session ∧
    w1.trace = w.trace ++ [Event.apiRequest, Event.jsonHandler body,
      Event.dispatch (jsonHandler body), Event.onSuccess, Event.dispatch (onSuccess ())] ∧
    w1.dispatched = w.dispatched ++ [jsonHandler body, onSuccess ()] ∧
    w1.handlerCalls = w.handlerCalls ++ [Event.jsonHandler body, Event.onSuccess] ∧
    w1.trace.countP Event.isApiRequest = w.trace.countP Event.isApiRequest + 1 ∧
    w1.trace.countP Event.isErrorHandler = w.trace.countP Event.isErrorHandler := by
  intro w1
  have hrun : w1 = dispatch (onSuccess ()) ((dispatch (jsonHandler body)
      ((w.record Event.apiRequest).record (Event.jsonHandler body))).record Event.onSuccess) := by
    simp [w1, wrappedRequest, wrappedRequestTry, hok, hbody, dispatchOnSuccess]
  rw [hrun]
  refine ⟨?_, ?_, ?_, ?_, ?_, ?_⟩
  · simp [dispatch, World.record]
  · simp [dispatch, World.record]
  · simp [dispatch, World.record, World.dispatched, Event.action]
  · simp [dispatch, World.record, World.handlerCalls, List.filter_cons, Event.isHandler]
  · simp [dispatch, World.record, List.countP_cons, Event.isApiRequest]
  · simp [dispatch, World.record, List.countP_cons, Event.isErrorHandler]

/-- C7 at status 200 with the body `{"value": 1}`: the actions dispatched are that of
`jsonHandler` on the body, then that of `onSuccess`. -/
theorem wrappedRequest_success_witness :
    valueOneResponse.ok = true ∧
    valueOneResponse.json = Outcome.resolved (Json.obj [("value", Json.num "1")]) ∧
    (wrappedRequest okEnv (Outcome.resolved valueOneResponse)
      (some fun b => if truthy (some b) then "received" else "empty") (some fun m => "failed: " ++ m)
      (some fun _ => "done") authorizedWorld).dispatched
      = authorizedWorld.dispatched ++ ["received", "done"] :=
  ⟨by decide, rfl,
    (wrappedRequest_success okEnv authorizedWorld valueOneResponse
      (Json.obj [("value", Json.num "1")]) (fun b => if truthy (some b) then "received" else "empty")
      (some fun m => "failed: " ++ m) (fun _ => "done") (by decide) rfl).2.2.1⟩

/-- C8: starting from the state at mount, when the first probe returns false: (A) if
`checkWhiteList` returns a truthy value and the second probe returns true, the mount
effect ends with `whitelisted` and `loggedIn` true (AUTHORIZED), `error` null and
`loading` false; (B) if `checkWhiteList` returns a falsy value, the probe is called
once only and the mount effect ends with `whitelisted` and `loggedIn` false
(WHITELIST_REQUIRED), `error` null and `loading` false. -/
theorem mountEffect_scenarios (env : Env D)
    (hfirst : env.checkLoggedIn 0 = Outcome.resolved false) :
    (∀ v, env.checkWhiteList = Outcome.resolved v → truthy v = true →
      env.checkLoggedIn 1 = Outcome.resolved true →
      (mountEffect env (World.initial : World D A)).2.session
        = { loading := false, loggedIn := true, whitelisted := true, error := ErrorVal.null } ∧
      namedState (mountEffect env (World.initial : World D A)).2.session
        = NamedState.AUTHORIZED ∧
      (mountEffect env (World.initial : World D A)).2.trace
        = [Event.checkLoggedIn, Event.checkWhiteList, Event.checkLoggedIn]) ∧
    (∀ v, env.checkWhiteList = Outcome.resolved v → truthy v = false →
      (mountEffect env (World.initial : World D A)).2.session
        = { loading := false, loggedIn := false, whitelisted := false, error := ErrorVal.null } ∧
      namedState (mountEffect env (World.initial : World D A)).2.session
        = NamedState.WHITELIST_REQUIRED ∧
      (mountEffect env (World.initial : World D A)).2.probeCount = 1 ∧
      (mountEffect env (World.initial : World D A)).2.trace
        = [Event.checkLoggedIn, Event.checkWhiteList]) := by
  have h0 : (World.initial : World D A).probeCount = 0 := rfl
  have hprobe1 : checkConnected env (World.initial : World D A)
      = (Outcome.resolved false, World.initial.record Event.checkLoggedIn) :=
    checkConnected_false env _ (by rw [h0]; exact hfirst)
  constructor
  · intro v hv ht hsecond
    have hc : (setError ErrorVal.null (setWhitelisted true
        (((World.initial : World D A).record Event.checkLoggedIn).record
          Event.checkWhiteList))).probeCount = 1 := rfl
    have hrun : mountEffect env (World.initial : World D A)
        = (Outcome.resolved (), setLoading false
            (setError ErrorVal.null (setLoggedIn true (setWhitelisted true
              ((setError ErrorVal.null (setWhitelisted true
                (((World.initial : World D A).record Event.checkLoggedIn).record
                  Event.checkWhiteList))).record Event.checkLoggedIn))))) := by
      simp only [mountEffect, doSetup]
      rw [hprobe1]
      simp only [hv, ht, Bool.not_false, if_true]
      rw [checkConnected_true env _ (by rw [hc]; exact hsecond)]
    rw [hrun]
    refine ⟨?_, ?_, ?_⟩
    · rfl
    · rfl
    · rfl
  · intro v hv ht
    have hrun : mountEffect env (World.initial : World D A)
        = (Outcome.resolved (), setLoading false
            (setError ErrorVal.null (setWhitelisted false
              (((World.initial : World D A).record Event.checkLoggedIn).record
                Event.checkWhiteList)))) := by
      simp only [mountEffect, doSetup]
      rw [hprobe1]
      simp [hv, ht]
    rw [hrun]
    refine ⟨?_, ?_, ?_, ?_⟩
    · rfl
    · rfl
    · rfl
    · rfl

/-- C8 at the two scenarios: the whitelist check returning `true` with later probes
succeeding, and the whitelist check returning `false`. -/
theorem mountEffect_scenarios_witness :
    scenarioAEnv.checkLoggedIn 0 = Outcome.resolved false ∧
    scenarioBEnv.checkLoggedIn 0 = Outcome.resolved false ∧
    namedState (mountEffect scenarioAEnv (World.initial : World String String)).2.session
      = NamedState.AUTHORIZED ∧
    namedState (mountEffect scenarioBEnv (World.initial : World String String)).2.session
      = NamedState.WHITELIST_REQUIRED ∧
    (mountEffect scenarioBEnv (World.initial : World String String)).2.probeCount = 1 :=
  ⟨rfl, rfl,
    ((mountEffect_scenarios scenarioAEnv rfl).1 (some (Json.bool true)) rfl rfl rfl).2.1,
    ((mountEffect_scenarios scenarioBEnv rfl).2 (some (Json.bool false)) rfl rfl).2.1,
    ((mountEffect_scenarios scenarioBEnv rfl).2 (some (Json.bool false)) rfl rfl).2.2.1⟩

/-- C10, counterexample: in a state with `loading` false and `whitelisted` false,
`logout()` leaves `whitelisted` false, so the named state is WHITELIST_REQUIRED and not
LOGIN_REQUIRED. -/
theorem logout_not_whitelisted_counterexample :
    revokedWorld.session.loading = false ∧
    namedState (logout revokedWorld).session = NamedState.WHITELIST_REQUIRED ∧
    namedState (logout revokedWorld).session ≠ NamedState.LOGIN_REQUIRED := by
  decide

/-- C10, amended: in every state with `loading` false, `logout()` sets `loggedIn` to
false and leaves `whitelisted`, `loading` and `error` unchanged; the named state after it
is LOGIN_REQUIRED when `whitelisted` is true and WHITELIST_REQUIRED when it is false. -/
theorem logout_named_state (w : World D A) (hload : w.session.loading = false) :
    (logout w).session = { w.session with loggedIn := false } ∧
    (logout w).session.whitelisted = w.session.whitelisted ∧
    (w.session.whitelisted = true →
      namedState (logout w).session = NamedState.LOGIN_REQUIRED) ∧
    (w.session.whitelisted = false →
      namedState (logout w).session = NamedState.WHITELIST_REQUIRED) := by
  refine ⟨?_, ?_, ?_, ?_⟩
  · simp [logout, setLoggedIn, clearXsrfToken, World.record]
  · simp [logout, setLoggedIn, clearXsrfToken, World.record]
  · intro hw
    simp [namedState, logout, setLoggedIn, clearXsrfToken, World.record, hload, hw]
  · intro hw
    simp [namedState, logout, setLoggedIn, clearXsrfToken, World.record, hload, hw]

/-- C10, amended, at the AUTHORIZED state and at a state that is not whitelisted. -/
theorem logout_named_state_witness :
    authorizedWorld.session.loading = false ∧
    namedState (logout authorizedWorld).session = NamedState.LOGIN_REQUIRED ∧
    whitelistRequiredWorld.session.loading = false ∧
    namedState (logout whitelistRequiredWorld).session = NamedState.WHITELIST_REQUIRED :=
  ⟨rfl, (logout_named_state authorizedWorld rfl).2.2.1 rfl,
    rfl, (logout_named_state whitelistRequiredWorld rfl).2.2.2 rfl⟩

/-- C9, counterexample: `logout()` and a `clearWhitelisting()` whose call to
`authService.clearWhiteList` resolves both succeed, and both leave the message that
`error` held before them in place. -/
theorem error_stale_after_logout_counterexample :
    okEnv.clearWhiteList = Outcome.resolved () ∧
    (logout staleErrorWorld).session.error = ErrorVal.message "Failed to fetch" ∧
    (logout staleErrorWorld).session.error ≠ ErrorVal.null ∧
    (clearWhitelisting okEnv staleErrorWorld).session.error
      = ErrorVal.message "Failed to fetch" ∧
    (clearWhitelisting okEnv staleErrorWorld).session.error ≠ ErrorVal.null := by
  decide

/-- C9, amended: from every starting state,
`onWhitelist` ends with `error` null when the token is accepted and the probe returns,
and with `error` "Whitelisting failed: " followed by the message when either throws;
`onLogin` ends with `error` null when the login resolves, the token installs and the
probe returns, with `error` "Malformed access token" when the token does not install, and
with `error` the message thrown when the login or the probe throws;
the mount effect whose first probe returns ends with `error` null when that probe
returns true, when `checkWhiteList` returns a falsy value, or when it returns a truthy
value and the second probe returns, and with `error` the message thrown when
`checkWhiteList` or the second probe throws;
`logout` and `clearWhitelisting` leave `error` as it was. -/
theorem error_after_transition (env : Env D) (w : World D A) :
    (∀ token,
      (∀ b, env.whitelist token = Outcome.resolved () →
        env.checkLoggedIn w.probeCount = Outcome.resolved b →
        (onWhitelist env token w).session.error = ErrorVal.null) ∧
      (∀ m, env.whitelist token = Outcome.rejected m →
        (onWhitelist env token w).session.error
          = ErrorVal.message ("Whitelisting failed: " ++ m)) ∧
      (∀ m, env.whitelist token = Outcome.resolved () →
        env.checkLoggedIn w.probeCount = Outcome.rejected m →
        (onWhitelist env token w).session.error
          = ErrorVal.message ("Whitelisting failed: " ++ m))) ∧
    (∀ details,
      (∀ r b, env.simpleLogin details = Outcome.resolved r → env.tokenValid r.xsrf = true →
        env.checkLoggedIn w.probeCount = Outcome.resolved b →
        (onLogin env details w).session.error = ErrorVal.null) ∧
      (∀ m, env.simpleLogin details = Outcome.rejected m →
        (onLogin env details w).session.error = ErrorVal.message m) ∧
      (∀ r, env.simpleLogin details = Outcome.resolved r → env.tokenValid r.xsrf = false →
        (onLogin env details w).session.error = ErrorVal.message "Malformed access token") ∧
      (∀ r m, env.simpleLogin details = Outcome.resolved r → env.tokenValid r.xsrf = true →
        env.checkLoggedIn w.probeCount = Outcome.rejected m →
        (onLogin env details w).session.error = ErrorVal.message m)) ∧
    ((env.checkLoggedIn w.probeCount = Outcome.resolved true →
        (mountEffect env w).2.session.error = ErrorVal.null) ∧
      (∀ v, env.checkLoggedIn w.probeCount = Outcome.resolved false →
        env.checkWhiteList = Outcome.resolved v → truthy v = false →
        (mountEffect env w).2.session.error = ErrorVal.null) ∧
      (∀ v b, env.checkLoggedIn w.probeCount = Outcome.resolved false →
        env.checkWhiteList = Outcome.resolved v → truthy v = true →
        env.checkLoggedIn (w.probeCount + 1) = Outcome.resolved b →
        (mountEffect env w).2.session.error = ErrorVal.null) ∧
      (∀ m, env.checkLoggedIn w.probeCount = Outcome.resolved false →
        env.checkWhiteList = Outcome.rejected m →
        (mountEffect env w).2.session.error = ErrorVal.message m) ∧
      (∀ v m, env.checkLoggedIn w.probeCount = Outcome.resolved false →
        env.checkWhiteList = Outcome.resolved v → truthy v = true →
        env.checkLoggedIn (w.probeCount + 1) = Outcome.rejected m →
        (mountEffect env w).2.session.error = ErrorVal.message m)) ∧
    (logout w).session.error = w.session.error ∧
    (clearWhitelisting env w).session.error = w.session.error := by
  refine ⟨fun token => ⟨?_, ?_, ?_⟩, fun details => ⟨?_, ?_, ?_, ?_⟩,
    ⟨?_, ?_, ?_, ?_, ?_⟩, ?_, ?_⟩
  · intro b hacc hb
    have hc : (setError ErrorVal.null
        (setWhitelisted true (w.record (Event.whitelist token)))).probeCount = w.probeCount := by
      simp [probeCount_record, Event.isProbe]
    rw [← hc] at hb
    simp only [onWhitelist, hacc]
    cases b
    · rw [checkConnected_false env _ hb]
      simp [setError, setWhitelisted, World.record]
    · rw [checkConnected_true env _ hb]
      simp [setError]
  · intro m hrej
    simp [onWhitelist, hrej, onWhitelistCatch, setError]
  · intro m hacc hm
    have hc : (setError ErrorVal.null
        (setWhitelisted true (w.record (Event.whitelist token)))).probeCount = w.probeCount := by
      simp [probeCount_record, Event.isProbe]
    rw [← hc] at hm
    simp only [onWhitelist, hacc]
    rw [checkConnected_rejected env _ m hm]
    simp [onWhitelistCatch, setError]
  · intro r b hlogin hvalid hb
    have hc : (setError ErrorVal.null (setLoggedIn true
        ({ (w.record (Event.simpleLogin details)).record (Event.setXsrfToken r.xsrf) with
            xsrfToken := some r.xsrf } : World D A))).probeCount = w.probeCount := by
      simp [World.probeCount, setError, setLoggedIn, World.record, Event.isProbe]
    rw [← hc] at hb
    simp only [onLogin, hlogin]
    rw [setXsrfToken_valid env _ _ hvalid]
    cases b
    · simp only []
      rw [checkConnected_false env _ hb]
      simp [setError, setLoggedIn, World.record]
    · simp only []
      rw [checkConnected_true env _ hb]
      simp [setError]
  · intro m hrej
    simp [onLogin, hrej, setError]
  · intro r hlogin hbad
    simp only [onLogin, hlogin]
    rw [setXsrfToken_invalid env _ _ hbad]
    simp [setError]
  · intro r m hlogin hvalid hm
    have hc : (setError ErrorVal.null (setLoggedIn true
        ({ (w.record (Event.simpleLogin details)).record (Event.setXsrfToken r.xsrf) with
            xsrfToken := some r.xsrf } : World D A))).probeCount = w.probeCount := by
      simp [World.probeCount, setError, setLoggedIn, World.record, Event.isProbe]
    rw [← hc] at hm
    simp only [onLogin, hlogin]
    rw [setXsrfToken_valid env _ _ hvalid]
    simp only []
    rw [checkConnected_rejected env _ m hm]
    simp [setError]
  · intro h1
    simp only [mountEffect, doSetup]
    rw [checkConnected_true env _ h1]
    simp [setError, setLoading]
  · intro v h1 hv ht
    simp only [mountEffect, doSetup]
    rw [checkConnected_false env _ h1]
    simp [hv, ht, setError, setLoading]
  · intro v b h1 hv ht h2
    have hc : (setError ErrorVal.null (setWhitelisted true
        ((w.record Event.checkLoggedIn).record Event.checkWhiteList))).probeCount
        = w.probeCount + 1 := by
      simp [probeCount_record, Event.isProbe]
    rw [← hc] at h2
    simp only [mountEffect, doSetup]
    rw [checkConnected_false env _ h1]
    simp only [hv, ht, Bool.not_false, if_true]
    cases b
    · rw [checkConnected_false env _ h2]
      simp [setError, setWhitelisted, setLoading, World.record]
    · rw [checkConnected_true env _ h2]
      simp [setError, setLoading]
  · intro m h1 hrej
    simp only [mountEffect, doSetup]
    rw [checkConnected_false env _ h1]
    simp [hrej, doSetupCatch, setError, setLoading]
  · intro v m h1 hv ht h2
    have hc : (setError ErrorVal.null (setWhitelisted true
        ((w.record Event.checkLoggedIn).record Event.checkWhiteList))).probeCount
        = w.probeCount + 1 := by
      simp [probeCount_record, Event.isProbe]
    rw [← hc] at h2
    simp only [mountEffect, doSetup]
    rw [checkConnected_false env _ h1]
    simp only [hv, ht, Bool.not_false, if_true]
    rw [checkConnected_rejected env _ m h2]
    simp [doSetupCatch, setError, setLoading]
  · simp [logout, setLoggedIn, clearXsrfToken, World.record]
  · unfold clearWhitelisting
    cases env.clearWhiteList <;> simp [setWhitelisted, World.record]

/-- C9, amended, from a state whose `error` holds a message: an accepted token followed
by a probe that returns clears it, a login whose token does not install replaces it, and
`logout` leaves it as it was. -/
theorem error_after_transition_witness :
    okEnv.whitelist "123456" = Outcome.resolved () ∧
    okEnv.checkLoggedIn staleErrorWorld.probeCount = Outcome.resolved true ∧
    (onWhitelist okEnv "123456" staleErrorWorld).session.error = ErrorVal.null ∧
    malformedTokenEnv.simpleLogin "user" = Outcome.resolved { expiry := 3600, xsrf := "" } ∧
    malformedTokenEnv.tokenValid "" = false ∧
    (onLogin malformedTokenEnv "user" staleErrorWorld).session.error
      = ErrorVal.message "Malformed access token" ∧
    (logout staleErrorWorld).session.error = staleErrorWorld.session.error :=
  ⟨rfl, rfl,
    ((error_after_transition okEnv staleErrorWorld).1 "123456").1 true rfl rfl,
    rfl, rfl,
    ((error_after_transition malformedTokenEnv staleErrorWorld).2.1 "user").2.2.1
      { expiry := 3600, xsrf := "" } rfl rfl,
    (error_after_transition malformedTokenEnv staleErrorWorld).2.2.2.1⟩

end Orko
